import Mathlib

/-!
Verification of the f-timebank session guard (Next.js middleware), the
login route handler, and the help-requests view's fetch logic, as shallow
embeddings in Lean 4.

The middleware (`src/unnamed/part_001`) is modelled as a pure function of
the request's cookies and an environment recording the outcome of the
three effectful steps this request would observe: local JWT verification
(`jwtVerify`), the external validation call (`GET /api/auth/me`), and the
refresh exchange (`POST /api/auth/refresh`). The result records the
routing decision, every cookie written on the response, and every network
endpoint contacted, in order.
-/

namespace Timebank

/-- Decoded JWT payload as the middleware uses it: only the `role` claim is
read (`(payload as any).role`), which may be absent. -/
structure JWTPayload where
  role : Option String
  deriving DecidableEq, Repr

/-- Outcome of the external validation call, once it returns without
throwing: `ok` is `validateRes.ok`, `userRole` is `me.user?.role` (absent
when the body has no `user` or the user has no `role`). -/
structure ValidateResult where
  ok : Bool
  userRole : Option String
  deriving DecidableEq, Repr

/-- Outcome of the refresh exchange, once it returns without throwing:
`ok` is `refreshResponse.ok`; `accessToken` and `refreshToken` are the
optional fields of the parsed JSON body. -/
structure RefreshResult where
  ok : Bool
  accessToken : Option String
  refreshToken : Option String
  deriving DecidableEq, Repr

/-- Environment of one middleware invocation: what each effectful step
would yield on this request. `none` models the step throwing (signature
failure for `verifyResult`; network or JSON-parse error for the two
calls). `production` is `process.env.NODE_ENV === 'production'`. -/
structure MWEnv where
  verifyResult : Option JWTPayload
  validateResult : Option ValidateResult
  refreshResult : Option RefreshResult
  production : Bool
  deriving DecidableEq, Repr

/-- One `cookies.set` on the response. `value` is `Option String` because
the handler may pass an absent field through. -/
structure CookieWrite where
  name : String
  value : Option String
  httpOnly : Bool
  secure : Bool
  sameSite : String
  maxAge : Nat
  path : String
  deriving DecidableEq, Repr

/-- Routing decision: `NextResponse.next()` or a redirect. -/
inductive Decision where
  | next : Decision
  | redirect (url : String) : Decision
  deriving DecidableEq, Repr

/-- Full observable outcome of one middleware run: decision, cookies
written on the response, and network endpoints contacted, in order. -/
structure MWResult where
  decision : Decision
  cookies : List CookieWrite
  networkCalls : List String
  deriving DecidableEq, Repr

/-- JavaScript truthiness of an optional string field: absent (`undefined`)
and the empty string are falsy. -/
def jsTruthy : Option String → Bool
  | some s => !(s == "")
  | none => false

/-- Cookie write with the flags every session cookie in this repository
uses: http-only, same-site lax, secure exactly in production, path `/`. -/
def sessionCookie (name : String) (value : Option String)
    (production : Bool) (maxAge : Nat) : CookieWrite :=
  ⟨name, value, true, production, "lax", maxAge, "/"⟩

/-- The guard of the external-validation step: the request is validated
externally iff the call returned without throwing, with `ok` status and
`me.user?.role === 'admin'`. -/
def externalValidated : Option ValidateResult → Bool
  | some vr => vr.ok && vr.userRole == some "admin"
  | none => false

/-- Whether the refresh exchange came back without throwing and with an
`ok` status. -/
def refreshSucceeded : Option RefreshResult → Bool
  | some rr => rr.ok
  | none => false

/-- The session-guard middleware of `src/unnamed/part_001`, step for step:
1. no `auth_token` cookie → redirect to `/login`;
2. local verification succeeds → allow iff the role claim is `"admin"`,
   else redirect;
3. local verification throws → call `/api/auth/me`; allow without cookie
   writes if it confirms an admin;
4. otherwise, if a `refresh_token` cookie exists, call
   `/api/auth/refresh`; on `ok`, allow and set each cookie whose field is
   truthy in the body (access token max-age 15 min, refresh 7 days);
5. anything else → redirect to `/login`. -/
def middleware (env : MWEnv) (authCookie refreshCookie : Option String) :
    MWResult :=
  match authCookie with
  | none => ⟨.redirect "/login", [], []⟩
  | some _accessToken =>
    match env.verifyResult with
    | some payload =>
      if payload.role = some "admin" then ⟨.next, [], []⟩
      else ⟨.redirect "/login", [], []⟩
    | none =>
      if externalValidated env.validateResult then
        ⟨.next, [], ["/api/auth/me"]⟩
      else
        match refreshCookie with
        | some _rt =>
          match env.refreshResult with
          | some rr =>
            if rr.ok then
              ⟨.next,
                (if jsTruthy rr.accessToken then
                  [sessionCookie "auth_token" rr.accessToken
                    env.production (60 * 15)]
                 else []) ++
                (if jsTruthy rr.refreshToken then
                  [sessionCookie "refresh_token" rr.refreshToken
                    env.production (60 * 60 * 24 * 7)]
                 else []),
                ["/api/auth/me", "/api/auth/refresh"]⟩
            else ⟨.redirect "/login", [], ["/api/auth/me", "/api/auth/refresh"]⟩
          | none => ⟨.redirect "/login", [], ["/api/auth/me", "/api/auth/refresh"]⟩
        | none => ⟨.redirect "/login", [], ["/api/auth/me"]⟩

/-- The `user` object of the upstream login response, as the handler reads
it: only `role` is inspected (`data.user?.role`). -/
structure JsonUser where
  role : Option String
  deriving DecidableEq, Repr

/-- Upstream login response (`fetch` to the external `/api/auth/login`),
once it returns without throwing: HTTP `ok` flag and status, plus the
fields of the parsed body the handler reads. -/
structure UpstreamResult where
  ok : Bool
  status : Nat
  message : Option String
  user : Option JsonUser
  accessToken : Option String
  refreshToken : Option String
  deriving DecidableEq, Repr

/-- JSON body returned by the login route handler: either
`{ success: false, message }` or
`{ success: true, user, accessToken, refreshToken }`. -/
inductive LoginBody where
  | failure (message : String) : LoginBody
  | success (user : Option JsonUser)
      (accessToken refreshToken : Option String) : LoginBody
  deriving DecidableEq, Repr

/-- Response of the login route handler: status, JSON body, cookies set. -/
structure LoginResponse where
  status : Nat
  body : LoginBody
  cookies : List CookieWrite
  deriving DecidableEq, Repr

/-- JavaScript `a || b` on an optional string field: the default wins when
the field is absent or the empty string. -/
def jsOr (m : Option String) (d : String) : String :=
  match m with
  | some s => if s == "" then d else s
  | none => d

/-- `data.user?.role`: optional chaining through the optional user. -/
def userRole : Option JsonUser → Option String
  | some u => u.role
  | none => none

/-- The login route handler `POST` of `src/unnamed/part_002`.
`upstream = none` models any exception in the try block (body parse,
fetch, or JSON parse), which the catch turns into a 500. Otherwise:
non-`ok` upstream status is forwarded with `{ success:false, message }`;
a non-admin user gets 403 and no cookies; an admin gets 200 with the
tokens in the body and both session cookies set. -/
def loginPOST (upstream : Option UpstreamResult) (production : Bool) :
    LoginResponse :=
  match upstream with
  | none => ⟨500, .failure "Internal server error", []⟩
  | some data =>
    if !data.ok then
      ⟨data.status, .failure (jsOr data.message "Invalid credentials"), []⟩
    else if userRole data.user ≠ some "admin" then
      ⟨403, .failure "Unauthorized: Admin access only", []⟩
    else
      ⟨200, .success data.user data.accessToken data.refreshToken,
        [sessionCookie "auth_token" data.accessToken production (60 * 15),
         sessionCookie "refresh_token" data.refreshToken production
           (60 * 60 * 24 * 7)]⟩

/-- Whether the upstream login response is an `ok` response whose resolved
user has role `"admin"` — exactly the case in which the handler reaches
the cookie-setting branch. -/
def isAdminSuccess : Option UpstreamResult → Bool
  | some data => data.ok && userRole data.user == some "admin"
  | none => false

/-- A job as the help-requests view uses it: only `id` participates in the
filtering logic. -/
structure Job where
  id : Int
  title : String
  deriving DecidableEq, Repr

/-- A job application as the view uses it: only `job_id` participates in
the filtering logic. -/
structure Application where
  id : Int
  job_id : Int
  deriving DecidableEq, Repr

/-- The state committed by `fetchAll` in
`src/src/components/help-requests-view.tsx` on a successful fetch: jobs
are filtered to those whose `id` is not in the set of `job_id`s of the
fetched applications; applications are stored unchanged. -/
def fetchAllState (fetchedJobs : List Job) (fetchedApps : List Application) :
    List Job × List Application :=
  let appliedJobIds := fetchedApps.map (fun a => a.job_id)
  (fetchedJobs.filter (fun j => !(appliedJobIds.contains j.id)), fetchedApps)

/-- Claim C1: for every request whose `auth_token` cookie is absent, the
middleware redirects to `/login`, writes no cookies, and contacts neither
the validation endpoint nor the refresh endpoint. -/
theorem mw_missing_token_redirects_no_network (env : MWEnv)
    (rc : Option String) :
    middleware env none rc = ⟨.redirect "/login", [], []⟩ := rfl

/-- Claim C2: when the access token verifies locally, the middleware
allows the request with no cookie writes and no network calls iff the
decoded role claim is `"admin"`; any other role value yields a redirect
to `/login`. -/
theorem mw_local_verify_role_gate (env : MWEnv) (tok : String)
    (rc : Option String) (payload : JWTPayload)
    (h : env.verifyResult = some payload) :
    (payload.role = some "admin" →
      middleware env (some tok) rc = ⟨.next, [], []⟩) ∧
    (payload.role ≠ some "admin" →
      middleware env (some tok) rc = ⟨.redirect "/login", [], []⟩) := by
  constructor
  · intro ha
    simp [middleware, h, ha]
  · intro ha
    simp [middleware, h, ha]

theorem mw_local_verify_role_gate_wit :
    middleware ⟨some ⟨some "admin"⟩, none, none, false⟩ (some "t") none =
      ⟨.next, [], []⟩ ∧
    middleware ⟨some ⟨some "user"⟩, none, none, false⟩ (some "t") none =
      ⟨.redirect "/login", [], []⟩ :=
  ⟨(mw_local_verify_role_gate ⟨some ⟨some "admin"⟩, none, none, false⟩
      "t" none ⟨some "admin"⟩ rfl).1 rfl,
   (mw_local_verify_role_gate ⟨some ⟨some "user"⟩, none, none, false⟩
      "t" none ⟨some "user"⟩ rfl).2 (by decide)⟩

/-- Claim C3: when local verification throws but the external validation
call returns an ok response whose user role is `"admin"`, the middleware
allows the request and writes no cookies; only the validation endpoint is
contacted. -/
theorem mw_external_validation_admin_allows (env : MWEnv) (tok : String)
    (rc : Option String) (vr : ValidateResult)
    (hv : env.verifyResult = none)
    (hval : env.validateResult = some vr)
    (hok : vr.ok = true) (hrole : vr.userRole = some "admin") :
    middleware env (some tok) rc = ⟨.next, [], ["/api/auth/me"]⟩ := by
  simp [middleware, hv, externalValidated, hval, hok, hrole]

theorem mw_external_validation_admin_allows_wit :
    middleware ⟨none, some ⟨true, some "admin"⟩, none, false⟩ (some "t")
      (some "r") = ⟨.next, [], ["/api/auth/me"]⟩ :=
  mw_external_validation_admin_allows
    ⟨none, some ⟨true, some "admin"⟩, none, false⟩ "t" (some "r")
    ⟨true, some "admin"⟩ rfl rfl rfl rfl

/-- Claim C4, counterexample: local verification throws, external
validation is not ok, a refresh cookie is present, and the refresh
endpoint responds success — yet with a token-free response body the
middleware sets no cookie at all, contradicting the claim that both
cookies are always set in this situation. -/
theorem mw_refresh_ok_but_no_cookies :
    middleware ⟨none, some ⟨false, none⟩, some ⟨true, none, none⟩, false⟩
      (some "t") (some "r") =
      ⟨.next, [], ["/api/auth/me", "/api/auth/refresh"]⟩ := rfl

/-- Claim C4, amended: when local verification throws, external
validation does not confirm an admin, a refresh cookie is present, and
the refresh endpoint responds success with a body carrying both a truthy
`accessToken` and a truthy `refreshToken`, the middleware allows the
request and sets the `auth_token` cookie (http-only, same-site lax,
secure in production, max-age 900) and the `refresh_token` cookie (same
flags, max-age 604800). -/
theorem mw_refresh_with_tokens_sets_cookies (env : MWEnv) (tok rt : String)
    (rr : RefreshResult)
    (hv : env.verifyResult = none)
    (hval : externalValidated env.validateResult = false)
    (hr : env.refreshResult = some rr)
    (hok : rr.ok = true)
    (ha : jsTruthy rr.accessToken = true)
    (hb : jsTruthy rr.refreshToken = true) :
    middleware env (some tok) (some rt) =
      ⟨.next,
        [⟨"auth_token", rr.accessToken, true, env.production, "lax", 900, "/"⟩,
         ⟨"refresh_token", rr.refreshToken, true, env.production, "lax",
           604800, "/"⟩],
        ["/api/auth/me", "/api/auth/refresh"]⟩ := by
  simp [middleware, hv, hval, hr, hok, ha, hb, sessionCookie]

theorem mw_refresh_with_tokens_sets_cookies_wit :
    middleware ⟨none, none, some ⟨true, some "a", some "b"⟩, true⟩
      (some "t") (some "r") =
      ⟨.next,
        [⟨"auth_token", some "a", true, true, "lax", 900, "/"⟩,
         ⟨"refresh_token", some "b", true, true, "lax", 604800, "/"⟩],
        ["/api/auth/me", "/api/auth/refresh"]⟩ :=
  mw_refresh_with_tokens_sets_cookies
    ⟨none, none, some ⟨true, some "a", some "b"⟩, true⟩ "t" "r"
    ⟨true, some "a", some "b"⟩ rfl rfl rfl rfl (by decide) (by decide)

/-- Claim C5: each failure class collapses to the same redirect to
`/login`: a missing credential; a locally valid token with a non-admin
role; and a token that fails local verification when external validation
does not confirm an admin and the refresh step cannot succeed (no refresh
cookie, or the exchange throws or is not ok). The middleware is a total
function, so no exception escapes it. -/
theorem mw_failures_collapse_to_login (env : MWEnv) (tok : String)
    (rc : Option String) :
    (middleware env none rc).decision = .redirect "/login" ∧
    (∀ p : JWTPayload, env.verifyResult = some p → p.role ≠ some "admin" →
      (middleware env (some tok) rc).decision = .redirect "/login") ∧
    (env.verifyResult = none →
      externalValidated env.validateResult = false →
      (rc = none ∨ refreshSucceeded env.refreshResult = false) →
      (middleware env (some tok) rc).decision = .redirect "/login") := by
  refine ⟨rfl, ?_, ?_⟩
  · intro p hp hrole
    simp [middleware, hp, hrole]
  · intro hv hval hr
    rcases hr with hr | hr
    · simp [middleware, hv, hval, hr]
    · cases rc with
      | none => simp [middleware, hv, hval]
      | some rt =>
        cases hq : env.refreshResult with
        | none => simp [middleware, hv, hval, hq]
        | some rr =>
          rw [hq] at hr
          simp only [refreshSucceeded] at hr
          simp [middleware, hv, hval, hq, hr]

theorem mw_failures_collapse_to_login_wit :
    (middleware ⟨none, none, none, false⟩ none none).decision =
      .redirect "/login" ∧
    (middleware ⟨none, none, none, false⟩ (some "t") none).decision =
      .redirect "/login" :=
  ⟨(mw_failures_collapse_to_login ⟨none, none, none, false⟩ "t" none).1,
   (mw_failures_collapse_to_login ⟨none, none, none, false⟩ "t" none).2.2
     rfl rfl (Or.inl rfl)⟩

/-- Claim C9: when local verification throws, external validation does
not confirm an admin, and the refresh endpoint responds success with a
body containing neither token field, the middleware still allows the
request and writes no cookies. -/
theorem mw_refresh_ok_no_tokens_allows (env : MWEnv) (tok rt : String)
    (rr : RefreshResult)
    (hv : env.verifyResult = none)
    (hval : externalValidated env.validateResult = false)
    (hr : env.refreshResult = some rr)
    (hok : rr.ok = true)
    (ha : rr.accessToken = none) (hb : rr.refreshToken = none) :
    middleware env (some tok) (some rt) =
      ⟨.next, [], ["/api/auth/me", "/api/auth/refresh"]⟩ := by
  simp [middleware, hv, hval, hr, hok, ha, hb, jsTruthy]

theorem mw_refresh_ok_no_tokens_allows_wit :
    middleware ⟨none, some ⟨true, some "user"⟩, some ⟨true, none, none⟩,
      true⟩ (some "t") (some "r") =
      ⟨.next, [], ["/api/auth/me", "/api/auth/refresh"]⟩ :=
  mw_refresh_ok_no_tokens_allows
    ⟨none, some ⟨true, some "user"⟩, some ⟨true, none, none⟩, true⟩
    "t" "r" ⟨true, none, none⟩ rfl (by decide) rfl rfl rfl rfl

/-- Claim C6, counterexample: the login route handler — a component other
than the middleware — writes both the `auth_token` and the
`refresh_token` cookie on a successful admin login, so the two session
cookies are not touched exclusively by the session guard. -/
theorem login_handler_writes_session_cookies :
    ((loginPOST (some ⟨true, 200, none, some ⟨some "admin"⟩, some "a",
        some "b"⟩) false).cookies).map (fun c => c.name) =
      ["auth_token", "refresh_token"] := rfl

/-- Claim C6, amended: besides the session guard, exactly one other
component touches the `auth_token` and `refresh_token` cookies — the
login route handler, which writes both (and reads neither) precisely when
the upstream response is ok and the resolved user is an admin, and writes
no cookie otherwise. -/
theorem login_cookie_writes_only_on_admin_success
    (up : Option UpstreamResult) (prod : Bool) :
    (((loginPOST up prod).cookies).map (fun c => c.name) =
        ["auth_token", "refresh_token"] ∧ isAdminSuccess up = true) ∨
    ((loginPOST up prod).cookies = [] ∧ isAdminSuccess up = false) := by
  cases up with
  | none => exact Or.inr ⟨rfl, rfl⟩
  | some d =>
    by_cases hok : d.ok
    · by_cases hrole : userRole d.user = some "admin"
      · exact Or.inl (by simp [loginPOST, isAdminSuccess, hok, hrole,
          sessionCookie])
      · exact Or.inr (by simp [loginPOST, isAdminSuccess, hok, hrole])
    · exact Or.inr (by simp [loginPOST, isAdminSuccess, hok])

/-- Claim C7: when the upstream login call is ok and the resolved user
role is `"admin"`, the handler returns status 200 with a JSON body
carrying the user, access token and refresh token, and sets the
`auth_token` cookie (http-only, same-site lax, secure in production,
max-age 900) and the `refresh_token` cookie (same flags, max-age
604800). -/
theorem login_admin_success_response (d : UpstreamResult) (prod : Bool)
    (hok : d.ok = true) (hrole : userRole d.user = some "admin") :
    loginPOST (some d) prod =
      ⟨200, .success d.user d.accessToken d.refreshToken,
        [⟨"auth_token", d.accessToken, true, prod, "lax", 900, "/"⟩,
         ⟨"refresh_token", d.refreshToken, true, prod, "lax", 604800,
           "/"⟩]⟩ := by
  simp [loginPOST, hok, hrole, sessionCookie]

theorem login_admin_success_response_wit :
    loginPOST (some ⟨true, 200, none, some ⟨some "admin"⟩, some "a",
        some "b"⟩) true =
      ⟨200, .success (some ⟨some "admin"⟩) (some "a") (some "b"),
        [⟨"auth_token", some "a", true, true, "lax", 900, "/"⟩,
         ⟨"refresh_token", some "b", true, true, "lax", 604800, "/"⟩]⟩ :=
  login_admin_success_response
    ⟨true, 200, none, some ⟨some "admin"⟩, some "a", some "b"⟩ true rfl rfl

/-- Claim C8: when the upstream login call is ok but the resolved user
role is not `"admin"`, the handler returns status 403 with a
`{ success:false, message }` body and sets no cookie. -/
theorem login_non_admin_403 (d : UpstreamResult) (prod : Bool)
    (hok : d.ok = true) (hrole : userRole d.user ≠ some "admin") :
    loginPOST (some d) prod =
      ⟨403, .failure "Unauthorized: Admin access only", []⟩ := by
  simp [loginPOST, hok, hrole]

theorem login_non_admin_403_wit :
    loginPOST (some ⟨true, 200, none, some ⟨some "user"⟩, some "a",
        some "b"⟩) false =
      ⟨403, .failure "Unauthorized: Admin access only", []⟩ :=
  login_non_admin_403
    ⟨true, 200, none, some ⟨some "user"⟩, some "a", some "b"⟩ false rfl
    (by decide)

/-- Claim C10: after a successful fetch, the committed jobs list is
exactly the fetched jobs whose id is not the `job_id` of any fetched
application, in fetched order, and the committed applications list is
every fetched application — so no job that already has an application is
displayed in the jobs table. -/
theorem fetchAll_jobs_exclude_applied (jobs : List Job)
    (apps : List Application) :
    (fetchAllState jobs apps).1 =
      jobs.filter (fun j => decide (¬ ∃ a ∈ apps, a.job_id = j.id)) ∧
    (fetchAllState jobs apps).2 = apps := by
  refine ⟨?_, rfl⟩
  unfold fetchAllState
  apply List.filter_congr
  intro j _
  rw [decide_not, Bool.not_inj_iff, Bool.eq_iff_iff]
  simp [List.contains_iff_exists_mem_beq, eq_comm]

end Timebank
